import Mathlib

/-!
Verification development for the SLMGen Dataset Intelligence & Model
Recommendation Engine.  Pure functions of the engine are embedded as Lean
definitions; the UI client code under src/slmgenui is embedded directly
from the TypeScript source.  Engine stages whose implementation is not part
of the repository snapshot are modelled from the specification, as marked
in the doc comment of each such definition.
-/

namespace SLMGen

/-- Message role: the three allowed values system / user / assistant
(spec section 3, ConversationRecord). -/
inductive Role where
  | system
  | user
  | assistant
deriving DecidableEq, Repr

/-- One message of a conversation record: a role and text content. -/
structure Message where
  role : Role
  content : String
deriving DecidableEq, Repr

/-- ConversationRecord: one training example, an ordered sequence of
messages (spec section 3). -/
structure ConversationRecord where
  messages : List Message
deriving DecidableEq, Repr

/-- A message as it appears on a raw input line before validation: the
role and content fields may each be missing. -/
structure RawMessage where
  role : Option String
  content : Option String
deriving DecidableEq, Repr

/-- A raw input line: either it does not parse as a structured record with
a messages field, or it carries a list of raw messages. -/
inductive RawLine where
  | malformed
  | record (msgs : List RawMessage)
deriving DecidableEq, Repr

/-- The per-line validation failure reasons, one per rule (a)-(d) of spec
section 4.1. -/
inductive FailReason where
  | notAList
  | badMessage
  | badRole
  | missingRoles
deriving DecidableEq, Repr

/-- ValidationIssue: line number plus the reason the line was rejected. -/
structure ValidationIssue where
  line_number : Nat
  reason : FailReason
deriving DecidableEq, Repr

/-- Maps a role string to the typed role when it is one of the three
allowed values. -/
def parseRole (s : String) : Option Role :=
  if s = "system" then some Role.system
  else if s = "user" then some Role.user
  else if s = "assistant" then some Role.assistant
  else none

/-- Rule (b) check for one raw message: both fields present and content
non-empty. -/
def msgWellFormed (m : RawMessage) : Bool :=
  m.role.isSome && (match m.content with | some c => c ≠ "" | none => false)

/-- Rule (c) check for one raw message: the role field holds one of the
three allowed values. -/
def msgRoleAllowed (m : RawMessage) : Bool :=
  match m.role with
  | some r => (parseRole r).isSome
  | none => false

/-- Converts a raw message into a typed message; yields none when a field
is missing, the content is empty, or the role is not allowed. -/
def convMessage (m : RawMessage) : Option Message :=
  match m.role, m.content with
  | some r, some c =>
    if c = "" then none else (parseRole r).map (fun ro => ⟨ro, c⟩)
  | _, _ => none

/-- Modelled from the spec: the per-line validator of the Record Parser &
Validator (spec section 4.1), whose backend implementation is not in the
repository snapshot.  The four rules are checked in order and the first
failure wins: (a) the line parses as a structured record with a non-empty
messages list; (b) every message has a role and non-empty content; (c)
every role is one of the three allowed values; (d) at least one user and
one assistant message. -/
def validateLine : RawLine → Except FailReason ConversationRecord
  | RawLine.malformed => Except.error FailReason.notAList
  | RawLine.record msgs =>
    if msgs.isEmpty then Except.error FailReason.notAList
    else if ¬ msgs.all msgWellFormed then Except.error FailReason.badMessage
    else if ¬ msgs.all msgRoleAllowed then Except.error FailReason.badRole
    else
      let typed := msgs.filterMap convMessage
      if typed.any (fun m => m.role = Role.user) &&
         typed.any (fun m => m.role = Role.assistant)
      then Except.ok ⟨typed⟩
      else Except.error FailReason.missingRoles

/-- Rule (a) as a standalone predicate on a raw line. -/
def ruleA : RawLine → Bool
  | RawLine.malformed => false
  | RawLine.record msgs => !msgs.isEmpty

/-- Rule (b) as a standalone predicate on a raw line. -/
def ruleB : RawLine → Bool
  | RawLine.malformed => false
  | RawLine.record msgs => msgs.all msgWellFormed

/-- Rule (c) as a standalone predicate on a raw line. -/
def ruleC : RawLine → Bool
  | RawLine.malformed => false
  | RawLine.record msgs => msgs.all msgRoleAllowed

/-- Rule (d) as a standalone predicate on a raw line: the converted
record has at least one user and one assistant message. -/
def ruleD : RawLine → Bool
  | RawLine.malformed => false
  | RawLine.record msgs =>
    let typed := msgs.filterMap convMessage
    typed.any (fun m => m.role = Role.user) &&
      typed.any (fun m => m.role = Role.assistant)

/-- Modelled from the spec: one line of the full parse pass, tagging a
failure with its line number (spec section 3, ParseOutcome). -/
def parseLine (idx : Nat) (l : RawLine) :
    Except ValidationIssue ConversationRecord :=
  (validateLine l).mapError (fun r => ⟨idx, r⟩)

/-- Modelled from the spec: the full parse pass over independent lines
(spec section 4.1); every line yields its own outcome and a malformed line
never aborts the batch. -/
def parseAll (ls : List RawLine) :
    List (Except ValidationIssue ConversationRecord) :=
  ls.enum.map (fun p => parseLine p.1 p.2)

/-- The valid records produced by the parse pass, in input order. -/
def recordsOf (ls : List RawLine) : List ConversationRecord :=
  ls.filterMap (fun l => (validateLine l).toOption)

/-- The number of valid parsed records. -/
def valid_count (ls : List RawLine) : Nat := (recordsOf ls).length

/-- The fatal error of the ingest operation. -/
inductive IngestError where
  | insufficientData
deriving DecidableEq, Repr

/-- Modelled from the spec: the ingest operation (spec sections 4.1 and 6),
whose backend implementation is not in the repository snapshot.  It fails
with InsufficientDataError exactly when fewer than 50 valid records were
parsed, and otherwise proceeds with the valid subset. -/
def ingest (ls : List RawLine) : Except IngestError (List ConversationRecord) :=
  let recs := recordsOf ls
  if recs.length < 50 then Except.error IngestError.insufficientData
  else Except.ok recs

/-- A well-formed single-turn input line used for boundary scenarios. -/
def goodLine : RawLine :=
  RawLine.record [⟨some "user", some "q"⟩, ⟨some "assistant", some "a"⟩]

/-- DatasetSnapshot: the immutable unit of work for the scoring stages,
holding the valid records (spec section 3). -/
structure DatasetSnapshot where
  records : List ConversationRecord
deriving DecidableEq, Repr

/-- Total number of examples in a snapshot. -/
def DatasetSnapshot.total_examples (s : DatasetSnapshot) : Nat :=
  s.records.length

/-- Modelled from the spec: approximate per-example token count of the
Quality Scorer (spec section 4.2), a character-length-based heuristic
(four characters per token), documented as approximate. -/
def recordTokens (r : ConversationRecord) : Nat :=
  ((r.messages.map (fun m => m.content.length)).sum) / 4

/-- True when position i of the record list holds an exact copy of an
earlier record: the full message sequences are equal. -/
def isDupAt (recs : List ConversationRecord) (i : Nat) : Bool :=
  (List.range i).any (fun j => decide (recs.get? j = recs.get? i))

/-- Modelled from the spec: duplicate detection of the Quality Scorer
(spec section 4.2), whose backend implementation is not in the repository
snapshot.  A record counts as a duplicate exactly when an earlier record
has an identical full message sequence. -/
def duplicatePositions (recs : List ConversationRecord) : List Nat :=
  (List.range recs.length).filter (fun i => isDupAt recs i)

/-- Number of duplicate records in a record list. -/
def duplicateCount (recs : List ConversationRecord) : Nat :=
  (duplicatePositions recs).length

/-- The reported duplicate example indices: at most 10 (spec section
4.2). -/
def duplicateExamples (recs : List ConversationRecord) : List Nat :=
  (duplicatePositions recs).take 10

/-- Duplicate fraction of a snapshot, as an exact rational. -/
def dupFraction (s : DatasetSnapshot) : ℚ :=
  if s.records.length = 0 then 0
  else (duplicateCount s.records : ℚ) / (s.records.length : ℚ)

/-- True when a record is a single exchange: exactly one user and one
assistant message (spec section 4.2). -/
def isSingleTurn (r : ConversationRecord) : Bool :=
  (r.messages.countP (fun m => decide (m.role = Role.user)) = 1) &&
    (r.messages.countP (fun m => decide (m.role = Role.assistant)) = 1)

/-- Percentage of single-turn examples. -/
def single_turn_pct (s : DatasetSnapshot) : ℚ :=
  if s.records.length = 0 then 0
  else 100 * (s.records.countP isSingleTurn : ℚ) / (s.records.length : ℚ)

/-- Presence of any system-role message across the snapshot. -/
def hasSystemPrompts (s : DatasetSnapshot) : Bool :=
  s.records.any (fun r => r.messages.any (fun m => decide (m.role = Role.system)))

/-- Mean of a list of rationals (0 for the empty list). -/
def listMean (xs : List ℚ) : ℚ :=
  if xs.length = 0 then 0 else xs.sum / (xs.length : ℚ)

/-- Variance of a list of rationals (0 for the empty list). -/
def listVariance (xs : List ℚ) : ℚ :=
  if xs.length = 0 then 0
  else ((xs.map (fun x => (x - listMean xs) ^ 2)).sum) / (xs.length : ℚ)

/-- Modelled from the spec: the inconsistent message-count distribution
check of the Quality Scorer (spec section 4.2), a coefficient-of-variation
threshold; expressed without a square root as variance above the squared
threshold (threshold one half) times the squared mean. -/
def inconsistentDistribution (s : DatasetSnapshot) : Bool :=
  let ns := s.records.map (fun r => (r.messages.length : ℚ))
  decide (listVariance ns > (1 / 4) * (listMean ns) ^ 2)

/-- The three quality issue strings in their fixed canonical order. -/
def canonicalIssues : List String :=
  ["High duplicate fraction",
   "Below recommended minimum of 100 examples",
   "Inconsistent message-count distribution"]

/-- Modelled from the spec: the aggregated issue list of the Quality
Scorer (spec section 4.2), emitted in a fixed canonical order. -/
def qualityIssues (s : DatasetSnapshot) : List String :=
  (([(decide (dupFraction s > 5 / 100), "High duplicate fraction"),
     (decide (s.total_examples < 100),
       "Below recommended minimum of 100 examples"),
     (inconsistentDistribution s,
       "Inconsistent message-count distribution")].filter
    (fun p => p.1)).map (fun p => p.2))

/-- Modelled from the spec: the quality score formula of the Quality
Scorer (spec section 4.2): start at 1.0, subtract a penalty proportional
to the duplicate fraction capped at 0.3, a flat 0.1 for a low example
count, a flat 0.05 for an inconsistent distribution, floored at 0. -/
def qualityScore (s : DatasetSnapshot) : ℚ :=
  let dupPenalty := min (dupFraction s) (3 / 10)
  let lowPenalty : ℚ := if s.total_examples < 100 then 1 / 10 else 0
  let inconsPenalty : ℚ := if inconsistentDistribution s then 1 / 20 else 0
  max 0 (1 - dupPenalty - lowPenalty - inconsPenalty)

/-- QualityReport: the output of the Quality Scorer (spec section 3). -/
structure QualityReport where
  score : ℚ
  issues : List String
  single_turn_pct : ℚ
  multi_turn_pct : ℚ
  has_system_prompts : Bool
  avg_tokens_per_example : ℚ
deriving DecidableEq, Repr

/-- Modelled from the spec: the Quality Scorer, a pure function from a
snapshot to a report (spec section 4.2), whose backend implementation is
not in the repository snapshot. -/
def qualityReport (s : DatasetSnapshot) : QualityReport :=
  { score := qualityScore s
    issues := qualityIssues s
    single_turn_pct := single_turn_pct s
    multi_turn_pct := 100 - single_turn_pct s
    has_system_prompts := hasSystemPrompts s
    avg_tokens_per_example :=
      if s.records.length = 0 then 0
      else ((s.records.map (fun r => (recordTokens r : ℚ))).sum) /
        (s.records.length : ℚ) }

/-- The risk level buckets (spec section 3, RiskAssessment). -/
inductive RiskLevel where
  | low
  | medium
  | high
deriving DecidableEq, Repr

/-- The signals consumed by the hallucination-risk estimator (spec
section 4.4). -/
structure RiskInput where
  total_examples : Nat
  diversity : ℚ
  has_system_prompts : Bool
  dup_fraction : ℚ
deriving DecidableEq, Repr

/-- Modelled from the spec: the additive hallucination-risk factor
contributions (spec section 4.4): low example count, low diversity,
absence of system prompts, high duplicate fraction; the individual
weights are a documented reference choice since the originals were not
recoverable. -/
def riskContributions (i : RiskInput) : List ℚ :=
  [if i.total_examples < 100 then 3 / 10 else 0,
   if i.diversity < 3 / 10 then 3 / 10 else 0,
   if i.has_system_prompts then 0 else 2 / 10,
   if i.dup_fraction > 1 / 10 then 3 / 10 else 0]

/-- Modelled from the spec: the hallucination-risk score is the additive
combination of the factor contributions capped at 1.0 (spec section
4.4). -/
def riskScore (i : RiskInput) : ℚ :=
  min 1 (riskContributions i).sum

/-- Modelled from the spec: the three-bucket level thresholds of spec
section 4.4: low below 0.34, medium below 0.67, else high. -/
def riskLevel (q : ℚ) : RiskLevel :=
  if q < 34 / 100 then RiskLevel.low
  else if q < 67 / 100 then RiskLevel.medium
  else RiskLevel.high

/-- The level assigned to a risk input. -/
def riskLevelOf (i : RiskInput) : RiskLevel :=
  riskLevel (riskScore i)

/-- Task types supported for fine-tuning, from
src/slmgenui/src/lib/types.ts (TaskType). -/
inductive TaskType where
  | classify
  | qa
  | conversation
  | generation
  | extraction
deriving DecidableEq, Repr

/-- Deployment targets, from src/slmgenui/src/lib/types.ts
(DeploymentTarget). -/
inductive DeploymentTarget where
  | cloud
  | mobile
  | edge
  | browser
  | desktop
  | server
deriving DecidableEq, Repr

/-- ModelCatalogEntry: one static catalog row (spec section 3). -/
structure ModelCatalogEntry where
  id : String
  name : String
  size_class : String
  context_window : Nat
  is_gated : Bool
  good_for_tasks : List TaskType
  good_for_deploy : List DeploymentTarget
  min_examples : Nat
  vram_gb : ℤ
  training_time_per_1k_examples : ℤ
  multilingual : Bool
deriving DecidableEq, Repr

/-- The data traits consumed by the Recommendation Engine for one
scoring request. -/
structure RecommendationInput where
  total_examples : Nat
  is_multilingual : Bool
  is_multi_turn : Bool
deriving DecidableEq, Repr

/-- Modelled from the spec: the fixed task-adjacency compatibility table
of spec section 4.5 (qa is adjacent to conversation; generation is taken
adjacent to conversation as a documented reference choice). -/
def taskAdjacent : TaskType → TaskType → Bool
  | TaskType.qa, TaskType.conversation => true
  | TaskType.conversation, TaskType.qa => true
  | TaskType.generation, TaskType.conversation => true
  | TaskType.conversation, TaskType.generation => true
  | _, _ => false

/-- Modelled from the spec: the task_fit sub-score of spec section 4.5:
full 50 marks on a direct tag match, half marks (25) on an adjacent task,
zero otherwise. -/
def task_fit (e : ModelCatalogEntry) (t : TaskType) : ℤ :=
  if t ∈ e.good_for_tasks then 50
  else if e.good_for_tasks.any (fun t2 => taskAdjacent t t2) then 25
  else 0

/-- Modelled from the spec: the fixed VRAM budget associated with each
deployment target (spec section 4.5); the concrete budgets are a
documented reference choice. -/
def vramBudget : DeploymentTarget → ℤ
  | DeploymentTarget.cloud => 80
  | DeploymentTarget.server => 48
  | DeploymentTarget.desktop => 24
  | DeploymentTarget.edge => 8
  | DeploymentTarget.mobile => 4
  | DeploymentTarget.browser => 2

/-- Modelled from the spec: the deploy_fit sub-score of spec section 4.5:
full 30 marks when the target is among the entry's deploy tags, otherwise
scaled down proportionally (3 points per GB) to how far the entry's VRAM
exceeds the target's budget, floored at 0. -/
def deploy_fit (e : ModelCatalogEntry) (d : DeploymentTarget) : ℤ :=
  if d ∈ e.good_for_deploy then 30
  else max 0 (30 - 3 * max 0 (e.vram_gb - vramBudget d))

/-- Modelled from the spec: the data_fit sub-score of spec section 4.5,
split across three sub-criteria with fixed slices of the 20 points:
dataset size versus min_examples (10), multilingual data versus a
multilingual-capable entry (5), multi-turn data versus an entry tagged
for conversation (5). -/
def data_fit (e : ModelCatalogEntry) (inp : RecommendationInput) : ℤ :=
  (if 2 * e.min_examples ≤ inp.total_examples then 10
   else if e.min_examples ≤ inp.total_examples then 5
   else 0)
  + (if inp.is_multilingual && e.multilingual then 5 else 0)
  + (if inp.is_multi_turn && decide (TaskType.conversation ∈ e.good_for_tasks)
     then 5 else 0)

/-- ScoreBreakdown: the three sub-scores plus their stored sum (spec
section 3). -/
structure ScoreBreakdown where
  task_fit : ℤ
  deploy_fit : ℤ
  data_fit : ℤ
  overall : ℤ
deriving DecidableEq, Repr

/-- Modelled from the spec: the single scoring route of the
Recommendation Engine: the overall field is set to the exact sum of the
three sub-scores at construction and nowhere else (spec sections 3 and
4.5). -/
def scoreBreakdown (inp : RecommendationInput) (t : TaskType)
    (d : DeploymentTarget) (e : ModelCatalogEntry) : ScoreBreakdown :=
  let tf := task_fit e t
  let df := deploy_fit e d
  let daf := data_fit e inp
  ⟨tf, df, daf, tf + df + daf⟩

/-- Modelled from the spec: table-driven reason strings assembled from
which sub-criteria scored above a threshold (spec section 4.5). -/
def reasonsOf (inp : RecommendationInput) (t : TaskType)
    (d : DeploymentTarget) (e : ModelCatalogEntry) : List String :=
  (if 25 ≤ task_fit e t then ["Strong match for your task"] else [])
    ++ (if 15 ≤ deploy_fit e d then ["Fits your deployment budget"] else [])
    ++ (if 10 ≤ data_fit e inp then ["Good fit for your dataset size"] else [])
    ++ ["Solid overall profile"]

/-- One scored catalog entry in a recommendation result. -/
structure ScoredEntry where
  entry : ModelCatalogEntry
  score : ScoreBreakdown
  reasons : List String
deriving DecidableEq, Repr

/-- RecommendationResult: the primary scored entry plus the ordered
alternatives (spec section 3). -/
structure RecommendationResult where
  primary : ScoredEntry
  alternatives : List ScoredEntry
deriving DecidableEq, Repr

/-- The fatal errors of the recommend operation (spec section 7). -/
inductive RecommendError where
  | invalidRequest
  | sessionNotFound
  | noEligibleModel
deriving DecidableEq, Repr

/-- Scores one catalog entry for a request. -/
def scoredOf (inp : RecommendationInput) (t : TaskType)
    (d : DeploymentTarget) (e : ModelCatalogEntry) : ScoredEntry :=
  ⟨e, scoreBreakdown inp t d e, reasonsOf inp t d e⟩

/-- Modelled from the spec: eligibility filtering of spec section 4.5: an
entry is rejected outright when the dataset has fewer examples than the
entry's minimum. -/
def eligibleEntries (catalog : List ModelCatalogEntry) (total : Nat) :
    List ModelCatalogEntry :=
  catalog.filter (fun e => decide (e.min_examples ≤ total))

/-- The ranking relation on indexed scored entries: higher overall first,
ties broken by ascending declared catalog order (the index). -/
def rankRel (a b : Nat × ScoredEntry) : Prop :=
  b.2.score.overall < a.2.score.overall ∨
    (a.2.score.overall = b.2.score.overall ∧ a.1 ≤ b.1)

instance : DecidableRel rankRel := fun a b => by
  unfold rankRel
  infer_instance

instance : IsTotal (Nat × ScoredEntry) rankRel where
  total a b := by
    unfold rankRel
    rcases lt_trichotomy a.2.score.overall b.2.score.overall with h | h | h
    · exact Or.inr (Or.inl h)
    · rcases Nat.le_total a.1 b.1 with h2 | h2
      · exact Or.inl (Or.inr ⟨h, h2⟩)
      · exact Or.inr (Or.inr ⟨h.symm, h2⟩)
    · exact Or.inl (Or.inl h)

instance : IsTrans (Nat × ScoredEntry) rankRel where
  trans a b c hab hbc := by
    unfold rankRel at hab hbc ⊢
    rcases hab with h1 | ⟨h1, h1i⟩
    · rcases hbc with h2 | ⟨h2, _⟩
      · exact Or.inl (h2.trans h1)
      · exact Or.inl (h2 ▸ h1)
    · rcases hbc with h2 | ⟨h2, h2i⟩
      · exact Or.inl (h1 ▸ h2)
      · exact Or.inr ⟨h1.trans h2, h1i.trans h2i⟩

/-- Modelled from the spec: the full deterministic ranking of the
eligible entries (spec section 4.5): score every eligible entry, pair it
with its declared catalog position, and sort descending by overall with
ties broken by ascending position. -/
def rankEligible (catalog : List ModelCatalogEntry)
    (inp : RecommendationInput) (t : TaskType) (d : DeploymentTarget) :
    List (Nat × ScoredEntry) :=
  (((eligibleEntries catalog inp.total_examples).map
    (scoredOf inp t d)).enum).insertionSort rankRel

/-- Modelled from the spec: the recommend operation (spec section 4.5),
whose backend implementation is not in the repository snapshot.  The top
ranked entry becomes primary, the next up to 4 become alternatives; an
empty eligible set fails with NoEligibleModelError. -/
def recommend (catalog : List ModelCatalogEntry)
    (inp : RecommendationInput) (t : TaskType) (d : DeploymentTarget) :
    Except RecommendError RecommendationResult :=
  match rankEligible catalog inp t d with
  | [] => Except.error RecommendError.noEligibleModel
  | top :: rest =>
    Except.ok ⟨top.2, (rest.take 4).map (fun p => p.2)⟩

/-- The wire value sent for a task type by the UI client, from
src/slmgenui/src/lib/types.ts. -/
def taskFieldValue : TaskType → String
  | TaskType.classify => "classify"
  | TaskType.qa => "qa"
  | TaskType.conversation => "conversation"
  | TaskType.generation => "generation"
  | TaskType.extraction => "extraction"

/-- The wire value sent for a deployment target by the UI client, from
src/slmgenui/src/lib/types.ts. -/
def deployFieldValue : DeploymentTarget → String
  | DeploymentTarget.cloud => "cloud"
  | DeploymentTarget.mobile => "mobile"
  | DeploymentTarget.edge => "edge"
  | DeploymentTarget.browser => "browser"
  | DeploymentTarget.desktop => "desktop"
  | DeploymentTarget.server => "server"

/-- The JSON body built by getRecommendation in
src/slmgenui/src/lib/api.ts (lines 139-155) for POST /recommend, as the
ordered list of key-value pairs it serializes. -/
def getRecommendationBody (sessionId : String) (t : TaskType)
    (d : DeploymentTarget) : List (String × String) :=
  [("session_id", sessionId), ("task", taskFieldValue t),
   ("deployment", deployFieldValue d)]

/-- Parses a raw task string against the recognized enum values. -/
def parseTaskType (s : String) : Option TaskType :=
  if s = "classify" then some TaskType.classify
  else if s = "qa" then some TaskType.qa
  else if s = "conversation" then some TaskType.conversation
  else if s = "generation" then some TaskType.generation
  else if s = "extraction" then some TaskType.extraction
  else none

/-- Parses a raw deployment string against the recognized enum values. -/
def parseDeployTarget (s : String) : Option DeploymentTarget :=
  if s = "cloud" then some DeploymentTarget.cloud
  else if s = "mobile" then some DeploymentTarget.mobile
  else if s = "edge" then some DeploymentTarget.edge
  else if s = "browser" then some DeploymentTarget.browser
  else if s = "desktop" then some DeploymentTarget.desktop
  else if s = "server" then some DeploymentTarget.server
  else none

/-- Modelled from the spec: the recommend operation as invoked with raw
enum strings; an unrecognized task or deployment value fails with
InvalidRequestError before any scoring work begins (spec sections 4.5
and 7). -/
def recommendOp (catalog : List ModelCatalogEntry)
    (inp : RecommendationInput) (ts ds : String) :
    Except RecommendError RecommendationResult :=
  match parseTaskType ts, parseDeployTarget ds with
  | some t, some d => recommend catalog inp t d
  | _, _ => Except.error RecommendError.invalidRequest

/-- The error class thrown by the client, from src/slmgenui/src/lib/api.ts
(ApiError): an HTTP status and a message. -/
structure ApiError where
  status : Nat
  message : String
deriving DecidableEq, Repr

/-- What one fetch attempt can produce, seen from apiRequest in
src/slmgenui/src/lib/api.ts: a successful response, an HTTP error
response with its status and derived error message, or a thrown network
error. -/
inductive FetchOutcome (α : Type) where
  | ok (v : α)
  | http (status : Nat) (msg : String)
  | network
deriving DecidableEq, Repr

/-- The lastError variable of apiRequest: either an ApiError recorded
from an HTTP error response, or a generic error recorded from a network
failure. -/
inductive LastErr where
  | api (e : ApiError)
  | generic
deriving DecidableEq, Repr

instance {ε α : Type} [DecidableEq ε] [DecidableEq α] :
    DecidableEq (Except ε α) := fun a b =>
  match a, b with
  | Except.ok x, Except.ok y =>
    if h : x = y then isTrue (by rw [h]) else isFalse (by simp [h])
  | Except.error x, Except.error y =>
    if h : x = y then isTrue (by rw [h]) else isFalse (by simp [h])
  | Except.ok _, Except.error _ => isFalse (by simp)
  | Except.error _, Except.ok _ => isFalse (by simp)

/-- The observable run of one apiRequest call: its result, how many fetch
attempts it made, the backoff delays it slept (in milliseconds), and the
ApiErrors it recorded into lastError along the way. -/
structure RunTrace (α : Type) where
  result : Except ApiError α
  attemptsMade : Nat
  delays : List Nat
  recorded : List ApiError
deriving DecidableEq, Repr

/-- The client-error test of apiRequest (api.ts line 75): a 4xx status
other than 429 is not retried. -/
def isClientError (s : Nat) : Bool :=
  decide (400 ≤ s) && decide (s < 500) && decide (s ≠ 429)

/-- The exponential backoff of apiRequest (api.ts lines 82 and 96):
2 ^ attempt * 1000 milliseconds. -/
def backoffMs (attempt : Nat) : Nat := 2 ^ attempt * 1000

/-- The final-failure message of apiRequest (api.ts line 107). -/
def connectFailMsg : String :=
  "Failed to connect to server after multiple attempts. Is the backend running?"

/-- True for attempt outcomes that apiRequest retries: 5xx and 429
responses (and any other non-ok response that is not a non-429 4xx) and
network errors. -/
def retryableB {α : Type} : FetchOutcome α → Bool
  | FetchOutcome.ok _ => false
  | FetchOutcome.http s _ => !(isClientError s)
  | FetchOutcome.network => true

/-- The retry loop of apiRequest from src/slmgenui/src/lib/api.ts (lines
52-101), embedded over the list of pending attempt indices; `last`
mirrors the lastError variable, `delays` and `recorded` accumulate the
observable trace, and `made` counts fetch calls performed so far.  After
the loop (api.ts lines 104-107) the recorded lastError is thrown when it
is an ApiError, else an ApiError with status 0. -/
def runAttempts {α : Type} (oracle : Nat → FetchOutcome α) (retries : Nat) :
    List Nat → Option LastErr → List Nat → List ApiError → Nat → RunTrace α
  | [], last, delays, recorded, made =>
    match last with
    | some (LastErr.api e) => ⟨Except.error e, made, delays, recorded⟩
    | _ => ⟨Except.error ⟨0, connectFailMsg⟩, made, delays, recorded⟩
  | attempt :: rest, last, delays, recorded, made =>
    match oracle attempt with
    | FetchOutcome.ok v => ⟨Except.ok v, made + 1, delays, recorded⟩
    | FetchOutcome.http s m =>
      if isClientError s then ⟨Except.error ⟨s, m⟩, made + 1, delays, recorded⟩
      else
        runAttempts oracle retries rest (some (LastErr.api ⟨s, m⟩))
          (delays ++ if attempt < retries - 1 then [backoffMs attempt] else [])
          (recorded ++ [⟨s, m⟩]) (made + 1)
    | FetchOutcome.network =>
      runAttempts oracle retries rest (some LastErr.generic)
        (delays ++ if attempt < retries - 1 then [backoffMs attempt] else [])
        recorded (made + 1)

/-- apiRequest from src/slmgenui/src/lib/api.ts (lines 44-108): runs the
for-loop over attempts 0 .. retries-1 with no error recorded yet. -/
def apiRequest {α : Type} (oracle : Nat → FetchOutcome α) (retries : Nat) :
    RunTrace α :=
  runAttempts oracle retries (List.range retries) none [] [] 0

/-- The ApiErrors recorded into lastError during the first i attempts:
one per retryable HTTP error response among them. -/
def recordedOf {α : Type} (oracle : Nat → FetchOutcome α) (i : Nat) :
    List ApiError :=
  (List.range i).filterMap (fun j =>
    match oracle j with
    | FetchOutcome.http s m => if isClientError s then none else some ⟨s, m⟩
    | _ => none)

/-- Claim C3: ingest fails with InsufficientDataError exactly when fewer
than 50 valid records were parsed; on success it proceeds with the valid
subset; a batch of exactly 49 valid records fails, and one of exactly 50
valid records succeeds even when invalid lines are present. -/
theorem ingest_insufficient_iff (ls : List RawLine) :
    (ingest ls = Except.error IngestError.insufficientData ↔
      valid_count ls < 50)
    ∧ (∀ r, ingest ls = Except.ok r → r = recordsOf ls)
    ∧ ingest (List.replicate 49 goodLine) =
        Except.error IngestError.insufficientData
    ∧ ingest (List.replicate 50 goodLine ++ [RawLine.malformed]) =
        Except.ok (recordsOf (List.replicate 50 goodLine)) := by
  refine ⟨?_, ?_, by decide, by decide⟩
  · by_cases h : (recordsOf ls).length < 50 <;>
      simp [ingest, valid_count, h]
  · intro r hr
    by_cases h : (recordsOf ls).length < 50 <;>
      simp [ingest, h] at hr
    exact hr.symm

/-- Witness for C3 at the 49-record boundary. -/
theorem ingest_insufficient_iff_witness :
    valid_count (List.replicate 49 goodLine) < 50 ∧
      ingest (List.replicate 49 goodLine) =
        Except.error IngestError.insufficientData :=
  ⟨by decide, (ingest_insufficient_iff (List.replicate 49 goodLine)).1.mpr
    (by decide)⟩

/-- Claim C9: the hallucination-risk score is the additive combination of
the risk-factor contributions capped at 1.0, lies in the unit interval,
and the level is low below 0.34, medium below 0.67, else high. -/
theorem risk_additive_capped (i : RiskInput) :
    riskScore i = min 1 (riskContributions i).sum
    ∧ 0 ≤ riskScore i ∧ riskScore i ≤ 1
    ∧ (riskScore i < 34 / 100 → riskLevelOf i = RiskLevel.low)
    ∧ (34 / 100 ≤ riskScore i → riskScore i < 67 / 100 →
        riskLevelOf i = RiskLevel.medium)
    ∧ (67 / 100 ≤ riskScore i → riskLevelOf i = RiskLevel.high) := by
  have hsum : 0 ≤ (riskContributions i).sum := by
    apply List.sum_nonneg
    intro x hx
    simp only [riskContributions, List.mem_cons, List.not_mem_nil, or_false]
      at hx
    rcases hx with h | h | h | h <;> rw [h] <;> split_ifs <;> norm_num
  refine ⟨rfl, ?_, ?_, ?_, ?_, ?_⟩
  · exact le_min (by norm_num) hsum
  · exact min_le_left _ _
  · intro h
    simp [riskLevelOf, riskLevel, h]
  · intro h1 h2
    simp [riskLevelOf, riskLevel, not_lt.2 h1, h2]
  · intro h
    have h1 : ¬ riskScore i < 34 / 100 := not_lt.2 (le_trans (by norm_num) h)
    simp [riskLevelOf, riskLevel, h1, not_lt.2 h]

/-- Witness for C9 on a dataset with no contributing risk factors. -/
theorem risk_additive_capped_witness :
    riskScore ⟨200, 1 / 2, true, 0⟩ < 34 / 100 ∧
      riskLevelOf ⟨200, 1 / 2, true, 0⟩ = RiskLevel.low := by
  have h : riskScore ⟨200, 1 / 2, true, 0⟩ = 0 := by
    unfold riskScore riskContributions
    norm_num
  have hlt : riskScore ⟨200, 1 / 2, true, 0⟩ < 34 / 100 := by
    rw [h]; norm_num
  exact ⟨hlt, (risk_additive_capped ⟨200, 1 / 2, true, 0⟩).2.2.2.1 hlt⟩

/-- Counterexample for C8: at a concrete call, the request body built by
getRecommendation carries the keys session_id, task and deployment, not
the claimed task_type and deployment_target. -/
theorem recommend_body_keys_counterexample :
    (getRecommendationBody "s" TaskType.qa DeploymentTarget.cloud).map
        Prod.fst = ["session_id", "task", "deployment"]
    ∧ "task_type" ∉
        (getRecommendationBody "s" TaskType.qa DeploymentTarget.cloud).map
          Prod.fst
    ∧ "deployment_target" ∉
        (getRecommendationBody "s" TaskType.qa DeploymentTarget.cloud).map
          Prod.fst := by
  refine ⟨rfl, by decide, by decide⟩

/-- Claim C8 (amended): every request built by getRecommendation carries
exactly the fields session_id, task and deployment, and an unrecognized
task or deployment value fails with InvalidRequestError before any
scoring work begins (independently of catalog and data traits). -/
theorem recommend_request_fields (s : String) (t : TaskType)
    (d : DeploymentTarget) (catalog : List ModelCatalogEntry)
    (inp : RecommendationInput) (ts ds : String)
    (hbad : parseTaskType ts = none ∨ parseDeployTarget ds = none) :
    (getRecommendationBody s t d).map Prod.fst =
        ["session_id", "task", "deployment"]
    ∧ recommendOp catalog inp ts ds =
        Except.error RecommendError.invalidRequest := by
  refine ⟨rfl, ?_⟩
  rcases hbad with h | h
  · cases hd : parseDeployTarget ds <;> simp [recommendOp, h, hd]
  · cases ht : parseTaskType ts <;> simp [recommendOp, h, ht]

/-- Witness for C8 at an unrecognized task value. -/
theorem recommend_request_fields_witness :
    parseTaskType "summarize" = none ∧
      recommendOp [] ⟨0, false, false⟩ "summarize" "cloud" =
        Except.error RecommendError.invalidRequest :=
  ⟨by decide,
    (recommend_request_fields "sid" TaskType.qa DeploymentTarget.cloud []
      ⟨0, false, false⟩ "summarize" "cloud" (Or.inl (by decide))).2⟩

/-- The quality score in its unfolded form. -/
theorem qualityReport_score (s : DatasetSnapshot) :
    (qualityReport s).score = qualityScore s := rfl

theorem dupFraction_nonneg (s : DatasetSnapshot) : 0 ≤ dupFraction s := by
  unfold dupFraction
  split
  · exact le_refl 0
  · positivity

/-- Claim C4: the quality score lies in the unit interval, the scorer is
a pure function of the snapshot content, and the issue list is emitted in
a fixed canonical order (it is always a sublist of the canonical issue
list). -/
theorem quality_score_bounds (s : DatasetSnapshot) :
    0 ≤ (qualityReport s).score
    ∧ (qualityReport s).score ≤ 1
    ∧ (∀ t, s = t → qualityReport s = qualityReport t)
    ∧ List.Sublist (qualityReport s).issues canonicalIssues := by
  have hdup : (0 : ℚ) ≤ min (dupFraction s) (3 / 10) :=
    le_min (dupFraction_nonneg s) (by norm_num)
  refine ⟨?_, ?_, ?_, ?_⟩
  · rw [qualityReport_score]
    exact le_max_left 0 _
  · rw [qualityReport_score]
    unfold qualityScore
    apply max_le (by norm_num)
    split_ifs <;> linarith
  · intro t h
    rw [h]
  · show List.Sublist (qualityIssues s) canonicalIssues
    unfold qualityIssues canonicalIssues
    exact List.Sublist.map _ (List.filter_sublist _)

/-- Witness for C4 on the empty snapshot. -/
theorem quality_score_bounds_witness :
    (⟨[]⟩ : DatasetSnapshot) = ⟨[]⟩ ∧
      qualityReport ⟨[]⟩ = qualityReport ⟨[]⟩ ∧
      0 ≤ (qualityReport ⟨[]⟩).score :=
  ⟨rfl, (quality_score_bounds ⟨[]⟩).2.2.1 ⟨[]⟩ rfl,
    (quality_score_bounds ⟨[]⟩).1⟩

/-- A concrete single-turn record whose user content encodes a number,
used for the duplicate-count scenario. -/
def mkRec (j : Nat) : ConversationRecord :=
  ⟨[⟨Role.user, Nat.repr j⟩, ⟨Role.assistant, "a"⟩]⟩

/-- The concrete duplicate-detection scenario of spec section 8: 60
unique records followed by 10 exact copies of the first record. -/
def datasetC6 : List ConversationRecord :=
  (List.range 60).map mkRec ++ List.replicate 10 (mkRec 0)

/-- Claim C6: a record position is reported as a duplicate only when an
earlier position holds a record whose full message sequence matches
exactly (record equality is exactly pointwise equality of role and
content in order); at most 10 example indices are reported; and the
60-unique-plus-10-copies dataset reports a duplicate count of 10. -/
theorem duplicates_exact_match :
    (∀ (recs : List ConversationRecord) (i : Nat),
      i ∈ duplicateExamples recs →
        ∃ j, j < i ∧ recs.get? j = recs.get? i)
    ∧ (∀ (r1 r2 : ConversationRecord), r1 = r2 ↔
        (r1.messages.length = r2.messages.length ∧
          ∀ k m1 m2, r1.messages.get? k = some m1 →
            r2.messages.get? k = some m2 →
              m1.role = m2.role ∧ m1.content = m2.content))
    ∧ (∀ recs, (duplicateExamples recs).length ≤ 10)
    ∧ duplicateCount datasetC6 = 10 := by
  refine ⟨?_, ?_, ?_, by decide⟩
  · intro recs i hi
    have hmem : i ∈ duplicatePositions recs :=
      List.mem_of_mem_take hi
    have hdup : isDupAt recs i = true :=
      (List.mem_filter.mp hmem).2
    obtain ⟨j, hj, hjeq⟩ := List.any_eq_true.mp hdup
    exact ⟨j, List.mem_range.mp hj, of_decide_eq_true hjeq⟩
  · intro r1 r2
    constructor
    · intro h
      subst h
      exact ⟨rfl, fun k m1 m2 h1 h2 => by
        rw [h1] at h2
        cases h2
        exact ⟨rfl, rfl⟩⟩
    · rintro ⟨hlen, hpt⟩
      cases r1 with
      | mk ms1 =>
        cases r2 with
        | mk ms2 =>
          simp only at hlen hpt
          congr 1
          apply List.ext_get?
          intro n
          cases h1 : ms1.get? n with
          | none =>
            have hn : ms1.length ≤ n := List.get?_eq_none.mp h1
            exact (List.get?_eq_none.mpr (hlen ▸ hn)).symm
          | some m1 =>
            cases h2 : ms2.get? n with
            | none =>
              have hn : ms2.length ≤ n := List.get?_eq_none.mp h2
              have hlt : n < ms1.length := by
                by_contra hge
                rw [List.get?_eq_none.mpr (Nat.le_of_not_lt hge)] at h1
                exact Option.noConfusion h1
              omega
            | some m2 =>
              obtain ⟨hr, hc⟩ := hpt n m1 m2 h1 h2
              cases m1 with
              | mk ro1 co1 =>
                cases m2 with
                | mk ro2 co2 =>
                  simp only at hr hc
                  rw [hr, hc]
  · intro recs
    calc (duplicateExamples recs).length
        ≤ 10 := (duplicatePositions recs).length_take_le 10

/-- Witness for C6: the first reported duplicate index of the scenario
dataset indeed has an earlier exact copy. -/
theorem duplicates_exact_match_witness :
    (60 ∈ duplicateExamples datasetC6) ∧
      ∃ j, j < 60 ∧ datasetC6.get? j = datasetC6.get? 60 :=
  ⟨by decide, duplicates_exact_match.1 datasetC6 60 (by decide)⟩

theorem mem_enum_snd {α : Type} {l : List α} {p : Nat × α} (h : p ∈ l.enum) :
    p.2 ∈ l :=
  List.getElem?_mem (List.mem_enum_iff_getElem?.mp h)

/-- Every scored entry of a successful recommend call is the scoring of
one eligible catalog entry. -/
theorem mem_result_scored {catalog : List ModelCatalogEntry}
    {inp : RecommendationInput} {t : TaskType} {d : DeploymentTarget}
    {res : RecommendationResult} {se : ScoredEntry}
    (hok : recommend catalog inp t d = Except.ok res)
    (hse : se ∈ res.primary :: res.alternatives) :
    ∃ e ∈ eligibleEntries catalog inp.total_examples,
      se = scoredOf inp t d e := by
  unfold recommend at hok
  cases hrank : rankEligible catalog inp t d with
  | nil => rw [hrank] at hok; exact absurd hok (by simp)
  | cons top rest =>
    rw [hrank] at hok
    have hres : res = ⟨top.2, (rest.take 4).map (fun p => p.2)⟩ := by
      cases hok
      rfl
    subst hres
    have hp : ∃ p, p ∈ (top :: rest) ∧ p.2 = se := by
      rcases List.mem_cons.mp hse with h | h
      · exact ⟨top, List.mem_cons_self _ _, h.symm⟩
      · obtain ⟨p, hp, hpe⟩ := List.mem_map.mp h
        exact ⟨p, List.mem_cons_of_mem _ (List.mem_of_mem_take hp), hpe⟩
    obtain ⟨p, hpmem, hpe⟩ := hp
    have hpr : p ∈ rankEligible catalog inp t d := hrank ▸ hpmem
    have hpenum : p ∈ ((eligibleEntries catalog inp.total_examples).map
        (scoredOf inp t d)).enum := by
      unfold rankEligible at hpr
      exact (List.mem_insertionSort rankRel).mp hpr
    have hpm : p.2 ∈ (eligibleEntries catalog inp.total_examples).map
        (scoredOf inp t d) := mem_enum_snd hpenum
    obtain ⟨e, he, hee⟩ := List.mem_map.mp hpm
    exact ⟨e, he, by rw [← hpe, ← hee]⟩

/-- The sub-score ranges of the single scoring route: task fit within
0-50, deploy fit within 0-30, data fit within 0-20, overall the exact
sum. -/
theorem scoreBreakdown_ranges (inp : RecommendationInput) (t : TaskType)
    (d : DeploymentTarget) (e : ModelCatalogEntry) :
    (scoreBreakdown inp t d e).overall =
        (scoreBreakdown inp t d e).task_fit +
        (scoreBreakdown inp t d e).deploy_fit +
        (scoreBreakdown inp t d e).data_fit
    ∧ 0 ≤ (scoreBreakdown inp t d e).task_fit
    ∧ (scoreBreakdown inp t d e).task_fit ≤ 50
    ∧ 0 ≤ (scoreBreakdown inp t d e).deploy_fit
    ∧ (scoreBreakdown inp t d e).deploy_fit ≤ 30
    ∧ 0 ≤ (scoreBreakdown inp t d e).data_fit
    ∧ (scoreBreakdown inp t d e).data_fit ≤ 20 := by
  refine ⟨rfl, ?_, ?_, ?_, ?_, ?_, ?_⟩
  · show (0 : ℤ) ≤ task_fit e t
    unfold task_fit
    split_ifs <;> norm_num
  · show task_fit e t ≤ 50
    unfold task_fit
    split_ifs <;> norm_num
  · show (0 : ℤ) ≤ deploy_fit e d
    unfold deploy_fit
    split_ifs with h
    · norm_num
    · exact le_max_left 0 _
  · show deploy_fit e d ≤ 30
    unfold deploy_fit
    split_ifs with h
    · norm_num
    · apply max_le (by norm_num)
      have h2 : (0 : ℤ) ≤ 3 * max 0 (e.vram_gb - vramBudget d) :=
        mul_nonneg (by norm_num) (le_max_left 0 _)
      linarith
  · show (0 : ℤ) ≤ data_fit e inp
    unfold data_fit
    split_ifs <;> norm_num
  · show data_fit e inp ≤ 20
    unfold data_fit
    split_ifs <;> norm_num

/-- Claim C1: every scored entry of a RecommendationResult has its
overall equal to exactly the sum of task fit, deploy fit and data fit,
with the three sub-scores within their 0-50, 0-30 and 0-20 ranges; and
its score was produced by the single scoring route scoreBreakdown. -/
theorem overall_is_component_sum {catalog : List ModelCatalogEntry}
    {inp : RecommendationInput} {t : TaskType} {d : DeploymentTarget}
    {res : RecommendationResult} {se : ScoredEntry}
    (hok : recommend catalog inp t d = Except.ok res)
    (hse : se ∈ res.primary :: res.alternatives) :
    se.score.overall =
        se.score.task_fit + se.score.deploy_fit + se.score.data_fit
    ∧ 0 ≤ se.score.task_fit ∧ se.score.task_fit ≤ 50
    ∧ 0 ≤ se.score.deploy_fit ∧ se.score.deploy_fit ≤ 30
    ∧ 0 ≤ se.score.data_fit ∧ se.score.data_fit ≤ 20
    ∧ se.score = scoreBreakdown inp t d se.entry := by
  obtain ⟨e, _, rfl⟩ := mem_result_scored hok hse
  obtain ⟨h1, h2, h3, h4, h5, h6, h7⟩ := scoreBreakdown_ranges inp t d e
  exact ⟨h1, h2, h3, h4, h5, h6, h7, rfl⟩

/-- A first concrete catalog entry for witness scenarios. -/
def entryA : ModelCatalogEntry :=
  ⟨"model-a", "Model A", "3B", 8192, false,
    [TaskType.qa, TaskType.conversation], [DeploymentTarget.cloud],
    50, 16, 10, true⟩

/-- A second concrete catalog entry for witness scenarios. -/
def entryB : ModelCatalogEntry :=
  ⟨"model-b", "Model B", "1B", 4096, false,
    [TaskType.classify], [DeploymentTarget.server],
    100, 8, 5, false⟩

/-- A concrete two-entry catalog for witness scenarios. -/
def catalogW : List ModelCatalogEntry := [entryA, entryB]

/-- Concrete data traits for witness scenarios: 200 monolingual
single-turn examples. -/
def inpW : RecommendationInput := ⟨200, false, false⟩

/-- The result recommend produces on the concrete witness scenario. -/
def resW : RecommendationResult :=
  ⟨scoredOf inpW TaskType.qa DeploymentTarget.cloud entryA,
    [scoredOf inpW TaskType.qa DeploymentTarget.cloud entryB]⟩

/-- Witness for C1 at the primary entry of the concrete scenario. -/
theorem overall_is_component_sum_witness :
    recommend catalogW inpW TaskType.qa DeploymentTarget.cloud =
        Except.ok resW
    ∧ resW.primary.score.overall =
        resW.primary.score.task_fit + resW.primary.score.deploy_fit +
          resW.primary.score.data_fit := by
  have hok : recommend catalogW inpW TaskType.qa DeploymentTarget.cloud =
      Except.ok resW := by decide
  exact ⟨hok, (overall_is_component_sum hok
    (List.mem_cons_self resW.primary resW.alternatives)).1⟩

/-- Claim C2: with a non-empty eligible set recommend succeeds; the
ranking is sorted descending by overall with ties broken by ascending
declared catalog order; the top entry becomes primary and the next up to
4 become alternatives, so there are at most 4 alternatives and the
primary's overall dominates every alternative's. -/
theorem ranking_sorted_and_split (catalog : List ModelCatalogEntry)
    (inp : RecommendationInput) (t : TaskType) (d : DeploymentTarget)
    (helig : eligibleEntries catalog inp.total_examples ≠ []) :
    (recommend catalog inp t d).isOk = true
    ∧ List.Sorted rankRel (rankEligible catalog inp t d)
    ∧ ∀ res, recommend catalog inp t d = Except.ok res →
        res.alternatives.length ≤ 4
        ∧ (∀ alt ∈ res.alternatives,
            alt.score.overall ≤ res.primary.score.overall)
        ∧ res.primary :: res.alternatives =
            ((rankEligible catalog inp t d).take 5).map (fun p => p.2) := by
  have hsorted : List.Sorted rankRel (rankEligible catalog inp t d) := by
    unfold rankEligible
    exact List.sorted_insertionSort rankRel _
  have hlen : (rankEligible catalog inp t d).length =
      (eligibleEntries catalog inp.total_examples).length := by
    unfold rankEligible
    rw [List.length_insertionSort, List.enum_length, List.length_map]
  refine ⟨?_, hsorted, ?_⟩
  · cases hrank : rankEligible catalog inp t d with
    | nil =>
      exfalso
      apply helig
      have : (eligibleEntries catalog inp.total_examples).length = 0 := by
        rw [← hlen, hrank]
        rfl
      exact List.length_eq_zero.mp this
    | cons top rest =>
      unfold recommend
      rw [hrank]
      rfl
  · intro res hok
    unfold recommend at hok
    cases hrank : rankEligible catalog inp t d with
    | nil => rw [hrank] at hok; exact absurd hok (by simp)
    | cons top rest =>
      rw [hrank] at hok
      have hres : res = ⟨top.2, (rest.take 4).map (fun p => p.2)⟩ := by
        cases hok
        rfl
      subst hres
      refine ⟨?_, ?_, ?_⟩
      · rw [List.length_map]
        exact le_trans (rest.length_take_le 4) (le_refl 4)
      · intro alt halt
        obtain ⟨p, hp, rfl⟩ := List.mem_map.mp halt
        have htop : ∀ b ∈ rest, rankRel top b :=
          (List.sorted_cons.mp (hrank ▸ hsorted)).1
        rcases htop p (List.mem_of_mem_take hp) with h | ⟨h, _⟩
        · exact le_of_lt h
        · exact le_of_eq h.symm
      · simp [List.take_succ_cons]

/-- Witness for C2 on the concrete two-entry scenario. -/
theorem ranking_sorted_and_split_witness :
    eligibleEntries catalogW inpW.total_examples ≠ []
    ∧ (recommend catalogW inpW TaskType.qa DeploymentTarget.cloud).isOk
        = true
    ∧ resW.alternatives.length ≤ 4 := by
  have helig : eligibleEntries catalogW inpW.total_examples ≠ [] := by decide
  have h := ranking_sorted_and_split catalogW inpW TaskType.qa
    DeploymentTarget.cloud helig
  exact ⟨helig, h.1, (h.2.2 resW (by decide)).1⟩

/-- Claim C7: every entry appearing in a recommendation result (primary
or alternative) satisfies the minimum-example threshold, so an entry
whose minimum exceeds the dataset size appears nowhere in the output;
and when every catalog entry is below threshold the call fails with
NoEligibleModelError. -/
theorem min_examples_eligibility (catalog : List ModelCatalogEntry)
    (inp : RecommendationInput) (t : TaskType) (d : DeploymentTarget) :
    (∀ res, recommend catalog inp t d = Except.ok res →
      ∀ se ∈ res.primary :: res.alternatives,
        se.entry.min_examples ≤ inp.total_examples)
    ∧ ((∀ e ∈ catalog, inp.total_examples < e.min_examples) →
        recommend catalog inp t d =
          Except.error RecommendError.noEligibleModel) := by
  constructor
  · intro res hok se hse
    obtain ⟨e, he, rfl⟩ := mem_result_scored hok hse
    have := (List.mem_filter.mp he).2
    exact of_decide_eq_true this
  · intro hall
    have helig : eligibleEntries catalog inp.total_examples = [] := by
      apply List.filter_eq_nil_iff.mpr
      intro e he
      simp only [decide_eq_true_eq]
      exact Nat.not_le.mpr (hall e he)
    have hrank : rankEligible catalog inp t d = [] := by
      unfold rankEligible
      rw [helig]
      rfl
    unfold recommend
    rw [hrank]

/-- Witness for C7: the primary of the concrete scenario satisfies its
threshold, and a 10-example dataset is rejected by the whole catalog. -/
theorem min_examples_eligibility_witness :
    resW.primary.entry.min_examples ≤ inpW.total_examples
    ∧ recommend catalogW ⟨10, false, false⟩ TaskType.qa
        DeploymentTarget.cloud =
          Except.error RecommendError.noEligibleModel := by
  have h1 := (min_examples_eligibility catalogW inpW TaskType.qa
    DeploymentTarget.cloud).1 resW (by decide) resW.primary
    (List.mem_cons_self resW.primary resW.alternatives)
  have h2 := (min_examples_eligibility catalogW ⟨10, false, false⟩
    TaskType.qa DeploymentTarget.cloud).2 (by decide)
  exact ⟨h1, h2⟩

/-- The per-line validator reports exactly the first failing rule among
(a), (b), (c), (d), and succeeds exactly when all four hold. -/
theorem validateLine_first_failure (l : RawLine) :
    (validateLine l = Except.error FailReason.notAList ↔ ruleA l = false)
    ∧ (validateLine l = Except.error FailReason.badMessage ↔
        (ruleA l = true ∧ ruleB l = false))
    ∧ (validateLine l = Except.error FailReason.badRole ↔
        (ruleA l = true ∧ ruleB l = true ∧ ruleC l = false))
    ∧ (validateLine l = Except.error FailReason.missingRoles ↔
        (ruleA l = true ∧ ruleB l = true ∧ ruleC l = true ∧
          ruleD l = false))
    ∧ ((validateLine l).isOk = true ↔
        (ruleA l = true ∧ ruleB l = true ∧ ruleC l = true ∧
          ruleD l = true)) := by
  cases l with
  | malformed =>
    simp [validateLine, ruleA, ruleB, ruleC, ruleD, Except.isOk,
      Except.toBool]
  | record msgs =>
    simp only [validateLine]
    split_ifs with h1 h2 h3 h4 <;>
      simp_all [ruleA, ruleB, ruleC, ruleD, Except.isOk, Except.toBool] <;>
        try assumption

/-- Claim C5: lines are processed independently (the i-th outcome of the
parse pass is a function of the i-th line alone), a failing line is
recorded as a ValidationIssue carrying its line number and skipped
without aborting the batch, and validation reports the first failing
rule among (a), (b), (c), (d) in that fixed order. -/
theorem parser_independent_first_failure (l : RawLine)
    (pre post ls : List RawLine) (r : FailReason) (i : Nat) :
    (validateLine l = Except.error FailReason.notAList ↔ ruleA l = false)
    ∧ (validateLine l = Except.error FailReason.badMessage ↔
        (ruleA l = true ∧ ruleB l = false))
    ∧ (validateLine l = Except.error FailReason.badRole ↔
        (ruleA l = true ∧ ruleB l = true ∧ ruleC l = false))
    ∧ (validateLine l = Except.error FailReason.missingRoles ↔
        (ruleA l = true ∧ ruleB l = true ∧ ruleC l = true ∧
          ruleD l = false))
    ∧ ((validateLine l).isOk = true ↔
        (ruleA l = true ∧ ruleB l = true ∧ ruleC l = true ∧
          ruleD l = true))
    ∧ (validateLine l = Except.error r →
        recordsOf (pre ++ l :: post) = recordsOf pre ++ recordsOf post)
    ∧ (parseAll ls)[i]? = (ls[i]?).map (parseLine i)
    ∧ (validateLine l = Except.error r →
        parseLine i l = Except.error ⟨i, r⟩) := by
  obtain ⟨ha, hb, hc, hd, hok⟩ := validateLine_first_failure l
  refine ⟨ha, hb, hc, hd, hok, ?_, ?_, ?_⟩
  · intro h
    unfold recordsOf
    rw [List.filterMap_append, List.filterMap_cons]
    simp [h, Except.toOption]
  · unfold parseAll
    rw [List.getElem?_map, List.getElem?_enum]
    cases h : ls[i]? <;> simp
  · intro h
    simp [parseLine, h, Except.mapError]

/-- Witness for C5: an empty-list line fails rule (a), and a malformed
line in the middle of a batch is skipped while the rest is kept. -/
theorem parser_independence_witness :
    ruleA (RawLine.record []) = false
    ∧ validateLine (RawLine.record []) = Except.error FailReason.notAList
    ∧ validateLine RawLine.malformed = Except.error FailReason.notAList
    ∧ recordsOf ([goodLine] ++ RawLine.malformed :: [goodLine]) =
        recordsOf [goodLine] ++ recordsOf [goodLine] := by
  refine ⟨by decide, ?_, by decide, ?_⟩
  · exact (parser_independent_first_failure (RawLine.record []) [] [] []
      FailReason.notAList 0).1.mpr (by decide)
  · exact (parser_independent_first_failure RawLine.malformed [goodLine]
      [goodLine] [] FailReason.notAList 0).2.2.2.2.2.1 (by decide)

/-- One retryable attempt of the loop: lastError is overwritten, a
backoff delay is slept unless this was the final attempt, and a retryable
HTTP error is appended to the recorded ApiErrors. -/
theorem runAttempts_retryable_step {α : Type}
    (oracle : Nat → FetchOutcome α) (retries a : Nat) (rest : List Nat)
    (last : Option LastErr) (delays : List Nat) (recorded : List ApiError)
    (made : Nat) (h : retryableB (oracle a) = true) :
    runAttempts oracle retries (a :: rest) last delays recorded made =
      runAttempts oracle retries rest
        (match oracle a with
         | FetchOutcome.http s m => some (LastErr.api ⟨s, m⟩)
         | _ => some LastErr.generic)
        (delays ++ if a < retries - 1 then [backoffMs a] else [])
        (recorded ++ (match oracle a with
          | FetchOutcome.http s m => [⟨s, m⟩]
          | _ => []))
        (made + 1) := by
  cases ho : oracle a with
  | ok v => simp [retryableB, ho] at h
  | http s m =>
    have hc : isClientError s = false := by
      have := ho ▸ h
      simpa [retryableB] using this
    simp [runAttempts, ho, hc]
  | network => simp [runAttempts, ho]

/-- The loop makes at most one fetch per pending attempt index. -/
theorem runAttempts_attempts_le {α : Type}
    (oracle : Nat → FetchOutcome α) (retries : Nat) (pending : List Nat)
    (last : Option LastErr) (delays : List Nat) (recorded : List ApiError)
    (made : Nat) :
    (runAttempts oracle retries pending last delays recorded
      made).attemptsMade ≤ made + pending.length := by
  induction pending generalizing last delays recorded made with
  | nil =>
    cases last with
    | none => simp [runAttempts]
    | some le => cases le <;> simp [runAttempts]
  | cons a rest ih =>
    cases ho : oracle a with
    | ok v => simp [runAttempts, ho]
    | http s m =>
      by_cases hc : isClientError s
      · simp [runAttempts, ho, hc]
      · simp only [runAttempts, ho, hc, Bool.false_eq_true, if_false,
          List.length_cons]
        calc (runAttempts oracle retries rest _ _ _ (made + 1)).attemptsMade
            ≤ (made + 1) + rest.length := ih _ _ _ _
          _ = made + (rest.length + 1) := by omega
    | network =>
      simp only [runAttempts, ho, List.length_cons]
      calc (runAttempts oracle retries rest _ _ _ (made + 1)).attemptsMade
          ≤ (made + 1) + rest.length := ih _ _ _ _
        _ = made + (rest.length + 1) := by omega

/-- The recorded ApiErrors of the first n+1 attempts. -/
theorem recordedOf_succ {α : Type} (oracle : Nat → FetchOutcome α)
    (n : Nat) :
    recordedOf oracle (n + 1) = recordedOf oracle n ++
      (match oracle n with
       | FetchOutcome.http s m => if isClientError s then [] else [⟨s, m⟩]
       | _ => []) := by
  unfold recordedOf
  rw [List.range_succ, List.filterMap_append]
  cases ho : oracle n with
  | ok v => simp [ho]
  | http s m => by_cases hc : isClientError s <;> simp [ho, hc]
  | network => simp [ho]

/-- Claim C10 (amended): a 4xx response other than 429 is thrown as an
ApiError at once, with no further attempt; otherwise up to 3 total
attempts are made with exponential backoff (1s then 2s); and when all 3
attempts fail retryably, the client throws the error recorded from the
final attempt when it is an ApiError, and an ApiError with status 0 when
the final attempt failed with a network error. -/
theorem api_retry_policy {α : Type} (oracle : Nat → FetchOutcome α) :
    (∀ i s m, i < 3 → (∀ j, j < i → retryableB (oracle j) = true) →
      oracle i = FetchOutcome.http s m → isClientError s = true →
        apiRequest oracle 3 =
          ⟨Except.error ⟨s, m⟩, i + 1, (List.range i).map backoffMs,
            recordedOf oracle i⟩)
    ∧ (apiRequest oracle 3).attemptsMade ≤ 3
    ∧ ((∀ j, j < 3 → retryableB (oracle j) = true) →
        apiRequest oracle 3 =
          ⟨Except.error (match oracle 2 with
              | FetchOutcome.http s m => ⟨s, m⟩
              | _ => ⟨0, connectFailMsg⟩),
            3, [1000, 2000], recordedOf oracle 3⟩) := by
  refine ⟨?_, ?_, ?_⟩
  · intro i s m hi hpre hoi hcs
    interval_cases i
    · unfold apiRequest
      simp [show List.range 3 = [0, 1, 2] from rfl, runAttempts, hoi, hcs,
        recordedOf]
    · have h0 := hpre 0 (by omega)
      unfold apiRequest
      cases ho0 : oracle 0 with
      | ok v => rw [ho0] at h0; simp [retryableB] at h0
      | http s0 m0 =>
        have hc0 : isClientError s0 = false := by
          rw [ho0] at h0; simpa [retryableB] using h0
        simp [show List.range 3 = [0, 1, 2] from rfl, runAttempts, ho0,
          hc0, hoi, hcs, recordedOf, backoffMs, List.range_succ,
          List.filterMap_append, List.filterMap_cons, List.filterMap_nil]
      | network =>
        simp [show List.range 3 = [0, 1, 2] from rfl, runAttempts, ho0,
          hoi, hcs, recordedOf, backoffMs, List.range_succ,
          List.filterMap_append, List.filterMap_cons, List.filterMap_nil]
    · have h0 := hpre 0 (by omega)
      have h1 := hpre 1 (by omega)
      unfold apiRequest
      cases ho0 : oracle 0 with
      | ok v => rw [ho0] at h0; simp [retryableB] at h0
      | http s0 m0 =>
        have hc0 : isClientError s0 = false := by
          rw [ho0] at h0; simpa [retryableB] using h0
        cases ho1 : oracle 1 with
        | ok v => rw [ho1] at h1; simp [retryableB] at h1
        | http s1 m1 =>
          have hc1 : isClientError s1 = false := by
            rw [ho1] at h1; simpa [retryableB] using h1
          simp [show List.range 3 = [0, 1, 2] from rfl, runAttempts, ho0,
            hc0, ho1, hc1, hoi, hcs, recordedOf, backoffMs,
            List.range_succ, List.filterMap_append, List.filterMap_cons,
            List.filterMap_nil]
        | network =>
          simp [show List.range 3 = [0, 1, 2] from rfl, runAttempts, ho0,
            hc0, ho1, hoi, hcs, recordedOf, backoffMs, List.range_succ,
            List.filterMap_append, List.filterMap_cons, List.filterMap_nil]
      | network =>
        cases ho1 : oracle 1 with
        | ok v => rw [ho1] at h1; simp [retryableB] at h1
        | http s1 m1 =>
          have hc1 : isClientError s1 = false := by
            rw [ho1] at h1; simpa [retryableB] using h1
          simp [show List.range 3 = [0, 1, 2] from rfl, runAttempts, ho0,
            ho1, hc1, hoi, hcs, recordedOf, backoffMs, List.range_succ,
            List.filterMap_append, List.filterMap_cons, List.filterMap_nil]
        | network =>
          simp [show List.range 3 = [0, 1, 2] from rfl, runAttempts, ho0,
            ho1, hoi, hcs, recordedOf, backoffMs, List.range_succ,
            List.filterMap_append, List.filterMap_cons, List.filterMap_nil]
  · have h := runAttempts_attempts_le oracle 3 (List.range 3) none [] [] 0
    simpa using h
  · intro hall
    have h0 := hall 0 (by omega)
    have h1 := hall 1 (by omega)
    have h2 := hall 2 (by omega)
    unfold apiRequest
    cases ho0 : oracle 0 with
    | ok v => rw [ho0] at h0; simp [retryableB] at h0
    | http s0 m0 =>
      have hc0 : isClientError s0 = false := by
        rw [ho0] at h0; simpa [retryableB] using h0
      cases ho1 : oracle 1 with
      | ok v => rw [ho1] at h1; simp [retryableB] at h1
      | http s1 m1 =>
        have hc1 : isClientError s1 = false := by
          rw [ho1] at h1; simpa [retryableB] using h1
        cases ho2 : oracle 2 with
        | ok v => rw [ho2] at h2; simp [retryableB] at h2
        | http s2 m2 =>
          have hc2 : isClientError s2 = false := by
            rw [ho2] at h2; simpa [retryableB] using h2
          simp [show List.range 3 = [0, 1, 2] from rfl, runAttempts, ho0,
            hc0, ho1, hc1, ho2, hc2, recordedOf, backoffMs,
            List.range_succ, List.filterMap_append, List.filterMap_cons,
            List.filterMap_nil]
        | network =>
          simp [show List.range 3 = [0, 1, 2] from rfl, runAttempts, ho0,
            hc0, ho1, hc1, ho2, recordedOf, backoffMs, List.range_succ,
            List.filterMap_append, List.filterMap_cons, List.filterMap_nil]
      | network =>
        cases ho2 : oracle 2 with
        | ok v => rw [ho2] at h2; simp [retryableB] at h2
        | http s2 m2 =>
          have hc2 : isClientError s2 = false := by
            rw [ho2] at h2; simpa [retryableB] using h2
          simp [show List.range 3 = [0, 1, 2] from rfl, runAttempts, ho0,
            hc0, ho1, ho2, hc2, recordedOf, backoffMs, List.range_succ,
            List.filterMap_append, List.filterMap_cons, List.filterMap_nil]
        | network =>
          simp [show List.range 3 = [0, 1, 2] from rfl, runAttempts, ho0,
            hc0, ho1, ho2, recordedOf, backoffMs, List.range_succ,
            List.filterMap_append, List.filterMap_cons, List.filterMap_nil]
    | network =>
      cases ho1 : oracle 1 with
      | ok v => rw [ho1] at h1; simp [retryableB] at h1
      | http s1 m1 =>
        have hc1 : isClientError s1 = false := by
          rw [ho1] at h1; simpa [retryableB] using h1
        cases ho2 : oracle 2 with
        | ok v => rw [ho2] at h2; simp [retryableB] at h2
        | http s2 m2 =>
          have hc2 : isClientError s2 = false := by
            rw [ho2] at h2; simpa [retryableB] using h2
          simp [show List.range 3 = [0, 1, 2] from rfl, runAttempts, ho0,
            ho1, hc1, ho2, hc2, recordedOf, backoffMs, List.range_succ,
            List.filterMap_append, List.filterMap_cons, List.filterMap_nil]
        | network =>
          simp [show List.range 3 = [0, 1, 2] from rfl, runAttempts, ho0,
            ho1, hc1, ho2, recordedOf, backoffMs, List.range_succ,
            List.filterMap_append, List.filterMap_cons, List.filterMap_nil]
      | network =>
        cases ho2 : oracle 2 with
        | ok v => rw [ho2] at h2; simp [retryableB] at h2
        | http s2 m2 =>
          have hc2 : isClientError s2 = false := by
            rw [ho2] at h2; simpa [retryableB] using h2
          simp [show List.range 3 = [0, 1, 2] from rfl, runAttempts, ho0,
            ho1, ho2, hc2, recordedOf, backoffMs, List.range_succ,
            List.filterMap_append, List.filterMap_cons, List.filterMap_nil]
        | network =>
          simp [show List.range 3 = [0, 1, 2] from rfl, runAttempts, ho0,
            ho1, ho2, recordedOf, backoffMs, List.range_succ,
            List.filterMap_append, List.filterMap_cons, List.filterMap_nil]

/-- The concrete attempt sequence falsifying C10 as stated: a 500
response, then two network failures. -/
def cexOracle : Nat → FetchOutcome Unit :=
  fun n => if n = 0 then FetchOutcome.http 500 "boom" else FetchOutcome.network

/-- Counterexample for C10: on this run an ApiError (status 500) was
recorded during the retries, yet after exhausting them the client throws
the status-0 connection error, not that last recorded ApiError. -/
theorem api_retry_last_recorded_counterexample :
    (apiRequest cexOracle 3).recorded = [⟨500, "boom"⟩]
    ∧ (apiRequest cexOracle 3).result =
        Except.error ⟨0, connectFailMsg⟩
    ∧ (apiRequest cexOracle 3).result ≠ Except.error ⟨500, "boom"⟩ := by
  refine ⟨rfl, rfl, ?_⟩
  intro h
  rw [show (apiRequest cexOracle 3).result =
    Except.error ⟨0, connectFailMsg⟩ from rfl] at h
  have h2 : (0 : Nat) = 500 := congrArg ApiError.status
    (Except.error.inj h)
  exact absurd h2 (by decide)

/-- A concrete attempt sequence for the witness: one 503, then a 404. -/
def oracleW : Nat → FetchOutcome Unit :=
  fun n => if n = 0 then FetchOutcome.http 503 "unavailable"
    else FetchOutcome.http 404 "not found"

/-- Witness for C10: a 503 is retried with a 1s backoff, then the 404 is
thrown at once with no further attempt. -/
theorem api_retry_policy_witness :
    retryableB (oracleW 0) = true
    ∧ isClientError 404 = true
    ∧ apiRequest oracleW 3 =
        ⟨Except.error ⟨404, "not found"⟩, 2, [1000],
          recordedOf oracleW 1⟩ := by
  refine ⟨by decide, by decide, ?_⟩
  have h := (api_retry_policy oracleW).1 1 404 "not found" (by omega)
    (fun j hj => by
      have hj0 : j = 0 := by omega
      rw [hj0]
      decide)
    rfl (by decide)
  simpa [backoffMs] using h

end SLMGen
